import Mathlib

/-!
Verification of the Maji Ndogo data pipeline (field-data processor,
weather-data processor, data ingestion) against its specification.

The pandas DataFrames are shallowly embedded two ways, each matching the
operations a method actually performs:

* a column-oriented table `CTable` (a list of named columns, each a list
  of cells) for the operations that read and write whole columns
  (`rename_columns`, `apply_corrections`, `process_messages`,
  `calculate_means`);
* a row-oriented table `DF` (column names plus rows of cells) for the
  operations that work row by row (`pd.merge`, `drop`, `query_data`'s
  emptiness test).

Cells carry exact rationals in place of Python floats (the properties at
stake — absolute value, arithmetic mean — are exact), strings, and a
`null` constructor standing for NaN/None.  A raising Python call is
modelled by `PyResult.raised`; a function that can also legitimately
return `None` returns `PyResult (Option _)`.
-/

/-- A cell of a DataFrame: a number (Python float, modelled exactly as a
rational), a string, or null (NaN / None). -/
inductive Cell where
  | num (q : ℚ)
  | str (s : String)
  | null
  deriving DecidableEq

/-- Outcome of a Python call: either an exception propagates (`raised`)
or a value is returned (`ok`). -/
inductive PyResult (α : Type) where
  | raised
  | ok (val : α)
  deriving DecidableEq

/-- Column-oriented DataFrame: named columns in order, each with its list
of cell values. -/
abbrev CTable := List (String × List Cell)

/-- `df[name]`: the first column with the given label, as pandas column
selection does; `none` models the KeyError on a missing label. -/
def getColC : CTable → String → Option (List Cell)
  | [], _ => none
  | c :: rest, n => if c.1 = n then some c.2 else getColC rest n

/-- Whether a column label is present. -/
def hasCol (df : CTable) (n : String) : Bool :=
  df.any (fun c => c.1 = n)

/-- `df[name] = vals`: replace the column if the label exists, otherwise
append a new column at the end, as pandas assignment does. -/
def setColC (df : CTable) (n : String) (vals : List Cell) : CTable :=
  if hasCol df n then df.map (fun c => if c.1 = n then (n, vals) else c)
  else df ++ [(n, vals)]

/-- Python `dict` lookup (`d.get(s)` without default) over the insertion
ordered pairs. -/
def dget : List (String × String) → String → Option String
  | [], _ => none
  | p :: rest, s => if p.1 = s then some p.2 else dget rest s

/-- `d.get(s, s)`: dictionary lookup with the key itself as default,
which is how `DataFrame.rename(columns=d)` maps each column label. -/
def renameMap (m : List (String × String)) (s : String) : String :=
  (dget m s).getD s

namespace FieldDataProcessor

/-- The `while temp_name in self.df.columns: temp_name += "_"` loop of
`rename_columns`, with explicit fuel.  Each iteration appends one
underscore; `rename_columns` supplies fuel `names.length + 1`, which is
proved sufficient below (`mkTempName_not_mem`). -/
def genTemp : Nat → List String → String → String
  | 0, _, t => t
  | f + 1, names, t => if t ∈ names then genTemp f names (t ++ "_") else t

/-- The collision-avoiding temporary column name generated by
`rename_columns`: start from the marker `"__temp_name_for_swap__"` and
extend with underscores while it collides with an existing label. -/
def mkTempName (names : List String) : String :=
  genTemp (names.length + 1) names "__temp_name_for_swap__"

/-- `FieldDataProcessor.rename_columns`: swap the two configured column
labels via a collision-checked temporary name.
`column1`/`column2` are the first key and first value of the configured
`columns_to_rename` dictionary.  Mirrors
`df.rename(columns={column1: temp_name, column2: column1})` followed by
`df.rename(columns={temp_name: column2})`; pandas `rename` maps every
column label through the dictionary, leaving labels that are not keys
unchanged (missing keys raise nothing by default). -/
def rename_columns (df : CTable) (column1 column2 : String) : CTable :=
  let temp_name := mkTempName (df.map Prod.fst)
  let df1 := df.map (fun c => (renameMap [(column1, temp_name), (column2, column1)] c.1, c.2))
  df1.map (fun c => (renameMap [(temp_name, column2)] c.1, c.2))

/-- The net label permutation the spec claims `rename_columns` realises:
`column1` and `column2` exchange labels, all other labels unchanged. -/
def swapName (column1 column2 n : String) : String :=
  if n = column1 then column2 else if n = column2 then column1 else n

end FieldDataProcessor

section TempNameLemmas

open FieldDataProcessor

lemma countP_succ_lt_of_mem (t : String) :
    ∀ l : List String, t ∈ l →
      l.countP (fun s => decide (t.length + 1 ≤ s.length)) <
        l.countP (fun s => decide (t.length ≤ s.length)) := by
  intro l hl
  induction l with
  | nil => cases hl
  | cons a l ih =>
    rcases List.mem_cons.mp hl with rfl | ha
    · have hmono : l.countP (fun s => decide (t.length + 1 ≤ s.length)) ≤
          l.countP (fun s => decide (t.length ≤ s.length)) := by
        apply List.countP_mono_left
        intro s _ hs
        simp only [decide_eq_true_eq] at hs ⊢
        omega
      simp only [List.countP_cons, decide_eq_true_eq]
      have h1 : ¬ (t.length + 1 ≤ t.length) := by omega
      have h2 : t.length ≤ t.length := le_refl _
      simp [h1, h2]
      omega
    · have := ih ha
      simp only [List.countP_cons]
      rcases h : decide (t.length + 1 ≤ a.length) with _ | _
      · rcases h2 : decide (t.length ≤ a.length) with _ | _ <;> simp <;> omega
      · have h2 : decide (t.length ≤ a.length) = true := by
          simp only [decide_eq_true_eq] at h ⊢
          omega
        simp [h2]
        omega

lemma genTemp_not_mem :
    ∀ (f : Nat) (names : List String) (t : String),
      names.countP (fun s => decide (t.length ≤ s.length)) < f →
      genTemp f names t ∉ names := by
  intro f
  induction f with
  | zero => intro names t h; omega
  | succ f ih =>
    intro names t h
    by_cases hm : t ∈ names
    · rw [genTemp, if_pos hm]
      apply ih
      have hlt := countP_succ_lt_of_mem t names hm
      have hu : ("_" : String).length = 1 := rfl
      have hlen : (t ++ "_").length = t.length + 1 := by
        rw [String.length_append, hu]
      rw [hlen]
      omega
    · rw [genTemp, if_neg hm]
      exact hm

lemma mkTempName_not_mem (names : List String) : mkTempName names ∉ names := by
  apply genTemp_not_mem
  have := List.countP_le_length (l := names)
      (p := fun s => decide (("__temp_name_for_swap__" : String).length ≤ s.length))
  omega

end TempNameLemmas

/-- C1: For every table containing two distinct columns `column1` and
`column2`, `rename_columns` exchanges exactly those two labels — the
resulting table is the original with `column1` relabelled `column2` and
vice versa, every other column's label and every column's contents
unchanged.  The table is arbitrary, so it may already contain the
temporary-marker label or underscore-extended variants of it. -/
theorem rename_columns_swaps_contents (df : CTable) (column1 column2 : String)
    (h12 : column1 ≠ column2)
    (h1 : column1 ∈ df.map Prod.fst) (h2 : column2 ∈ df.map Prod.fst) :
    FieldDataProcessor.rename_columns df column1 column2 =
      df.map (fun c => (FieldDataProcessor.swapName column1 column2 c.1, c.2)) := by
  unfold FieldDataProcessor.rename_columns
  have htemp := mkTempName_not_mem (df.map Prod.fst)
  set temp := FieldDataProcessor.mkTempName (df.map Prod.fst) with htempdef
  rw [List.map_map]
  apply List.map_congr_left
  intro c hc
  have hcmem : c.1 ∈ df.map Prod.fst := List.mem_map_of_mem Prod.fst hc
  have htc : temp ≠ c.1 := fun he => htemp (he ▸ hcmem)
  have ht1 : temp ≠ column1 := fun he => htemp (he ▸ h1)
  simp only [Function.comp_apply]
  have hinner1 : renameMap [(column1, temp), (column2, column1)] column1 = temp := by
    simp [renameMap, dget]
  have houter1 : renameMap [(temp, column2)] temp = column2 := by
    simp [renameMap, dget]
  by_cases hc1 : c.1 = column1
  · rw [hc1, hinner1, houter1]
    simp [FieldDataProcessor.swapName]
  · by_cases hc2 : c.1 = column2
    · have hinner2 : renameMap [(column1, temp), (column2, column1)] column2 = column1 := by
        simp [renameMap, dget, h12]
      have houter2 : renameMap [(temp, column2)] column1 = column1 := by
        simp [renameMap, dget, ht1]
      rw [hc2, hinner2, houter2]
      simp [FieldDataProcessor.swapName, Ne.symm h12]
    · have hd1 : column1 ≠ c.1 := fun he => hc1 he.symm
      have hd2 : column2 ≠ c.1 := fun he => hc2 he.symm
      have hinner3 : renameMap [(column1, temp), (column2, column1)] c.1 = c.1 := by
        simp [renameMap, dget, hd1, hd2]
      have houter3 : renameMap [(temp, column2)] c.1 = c.1 := by
        simp [renameMap, dget, htc]
      rw [hinner3, houter3]
      simp [FieldDataProcessor.swapName, hc1, hc2]

/-- Witness for C1 at a concrete table that already contains the
temporary-marker column name. -/
theorem rename_columns_swaps_contents_witness :
    ("A" : String) ≠ "B" ∧
      ("A" : String) ∈ ([("A", [Cell.num 1]), ("B", [Cell.num 2]),
          ("__temp_name_for_swap__", [Cell.num 3])] : CTable).map Prod.fst ∧
      ("B" : String) ∈ ([("A", [Cell.num 1]), ("B", [Cell.num 2]),
          ("__temp_name_for_swap__", [Cell.num 3])] : CTable).map Prod.fst ∧
      FieldDataProcessor.rename_columns
          [("A", [Cell.num 1]), ("B", [Cell.num 2]),
            ("__temp_name_for_swap__", [Cell.num 3])] "A" "B" =
        ([("A", [Cell.num 1]), ("B", [Cell.num 2]),
            ("__temp_name_for_swap__", [Cell.num 3])] : CTable).map
          (fun c => (FieldDataProcessor.swapName "A" "B" c.1, c.2)) :=
  ⟨by decide, by decide, by decide,
    rename_columns_swaps_contents _ "A" "B" (by decide) (by decide) (by decide)⟩

/-- C6 (the code, evaluated at the failing input): when neither directive
name is a column of the table, `rename_columns` completes silently and
returns the table unchanged — pandas `rename` ignores missing labels by
default — although the method's own docstring says it raises `ValueError`
when a column to rename is absent. -/
theorem rename_columns_missing_columns_noop :
    FieldDataProcessor.rename_columns
        [("X", [Cell.num 1]), ("Y", [Cell.num 2])] "A" "B" =
      [("X", [Cell.num 1]), ("Y", [Cell.num 2])] := by
  decide

/-- `Series.abs()` applied to one cell: a number becomes its absolute
value, NaN stays NaN, and `abs` of a string raises (`none`). -/
def cellAbs : Cell → Option Cell
  | Cell.num q => some (Cell.num |q|)
  | Cell.null => some Cell.null
  | Cell.str _ => none

/-- `Series.abs()` over a whole column, raising (`none`) as soon as one
cell does. -/
def absSeries : List Cell → Option (List Cell)
  | [] => some []
  | c :: rest =>
    match cellAbs c, absSeries rest with
    | some c', some rest' => some (c' :: rest')
    | _, _ => none

/-- The total function `absSeries` computes on all-numeric columns. -/
def absCell : Cell → Cell
  | Cell.num q => Cell.num |q|
  | c => c

/-- Decidable test that a cell is a number. -/
def Cell.isNum : Cell → Bool
  | Cell.num _ => true
  | _ => false

/-- `lambda crop: self.values_to_rename.get(crop, crop)`: dictionary
lookup with the cell itself as default.  The dictionary keys are strings,
so a non-string cell never hits and passes through unchanged. -/
def renameCell (m : List (String × String)) : Cell → Cell
  | Cell.str s => Cell.str (renameMap m s)
  | c => c

namespace FieldDataProcessor

/-- `FieldDataProcessor.apply_corrections(column_name, abs_column)`:
`self.df['Elevation'] = self.df['Elevation'].abs()` followed by
`self.df['Crop_type'] = self.df['Crop_type'].apply(lambda crop:
self.values_to_rename.get(crop, crop))`.  The `column_name` and
`abs_column` parameters appear in the signature but are never used by
the body, which hardcodes the two labels.  `raised` models the KeyError
on a missing `Elevation` or `Crop_type` column and the TypeError of
`abs` on a string cell. -/
def apply_corrections (values_to_rename : List (String × String)) (df : CTable)
    (column_name abs_column : String) : PyResult CTable :=
  match getColC df "Elevation" with
  | none => PyResult.raised
  | some elev =>
    match absSeries elev with
    | none => PyResult.raised
    | some elevAbs =>
      let df1 := setColC df "Elevation" elevAbs
      match getColC df1 "Crop_type" with
      | none => PyResult.raised
      | some crop =>
        PyResult.ok (setColC df1 "Crop_type" (crop.map (renameCell values_to_rename)))

end FieldDataProcessor

section ColumnLemmas

lemma hasCol_of_getColC {df : CTable} {n : String} {v : List Cell}
    (h : getColC df n = some v) : hasCol df n = true := by
  induction df with
  | nil => simp [getColC] at h
  | cons c rest ih =>
    by_cases hc : c.1 = n
    · simp [hasCol, hc]
    · rw [getColC, if_neg hc] at h
      have := ih h
      simp [hasCol] at this ⊢
      exact Or.inr this

lemma getColC_eq_none_of_not_hasCol {df : CTable} {n : String}
    (h : hasCol df n = false) : getColC df n = none := by
  induction df with
  | nil => simp [getColC]
  | cons c rest ih =>
    simp [hasCol] at h
    rw [getColC, if_neg h.1]
    apply ih
    simp [hasCol]
    exact h.2

lemma getColC_append (a b : CTable) (n : String) :
    getColC (a ++ b) n =
      match getColC a n with
      | some v => some v
      | none => getColC b n := by
  induction a with
  | nil => simp [getColC]
  | cons c rest ih =>
    by_cases hc : c.1 = n
    · simp [getColC, hc]
    · simp [getColC, hc, ih]

lemma getColC_setColC_same {df : CTable} {n : String} (v : List Cell)
    (h : hasCol df n = true) : getColC (setColC df n v) n = some v := by
  unfold setColC
  rw [if_pos h]
  induction df with
  | nil => simp [hasCol] at h
  | cons c rest ih =>
    by_cases hc : c.1 = n
    · simp [getColC, hc]
    · simp [hasCol, hc] at h
      simp [getColC, hc, ih (by simp [hasCol, h])]

lemma getColC_map_set_ne (df : CTable) (n n' : String) (v : List Cell)
    (h : n ≠ n') :
    getColC (df.map (fun c => if c.1 = n then (n, v) else c)) n' = getColC df n' := by
  induction df with
  | nil => simp [getColC]
  | cons c rest ih =>
    by_cases hc : c.1 = n
    · simp only [List.map_cons, if_pos hc, getColC]
      rw [if_neg h, if_neg (by rw [hc]; exact h)]
      exact ih
    · simp only [List.map_cons, if_neg hc, getColC]
      by_cases hc' : c.1 = n'
      · simp [hc']
      · simp [hc', ih]

lemma getColC_setColC_ne (df : CTable) (n n' : String) (v : List Cell)
    (h : n ≠ n') : getColC (setColC df n v) n' = getColC df n' := by
  unfold setColC
  split
  · exact getColC_map_set_ne df n n' v h
  · rw [getColC_append]
    cases hg : getColC df n' with
    | some v' => rfl
    | none => simp [getColC, h]

lemma absSeries_of_num {elev : List Cell} (h : ∀ c ∈ elev, c.isNum = true) :
    absSeries elev = some (elev.map absCell) := by
  induction elev with
  | nil => simp [absSeries]
  | cons c rest ih =>
    have hc := h c (List.mem_cons_self c rest)
    have hrest := ih (fun x hx => h x (List.mem_cons_of_mem c hx))
    cases c with
    | num q => simp [absSeries, cellAbs, absCell, hrest]
    | str s => simp [Cell.isNum] at hc
    | null => simp [Cell.isNum] at hc

lemma absCell_isNum {c : Cell} (h : c.isNum = true) : (absCell c).isNum = true := by
  cases c <;> simp [Cell.isNum, absCell] at h ⊢

end ColumnLemmas

/-- C5: On a table with an all-numeric `Elevation` column and a
`Crop_type` column, `apply_corrections` succeeds; afterwards the
elevation column is the input column with every value replaced by its
absolute value (so non-negative inputs, zero included, are unchanged
since `|q| = q`), running `apply_corrections` a second time leaves the
elevation column as after the first run (idempotence of the absolute
value), and the crop-type column is the input column with every value
that is a key of the value-rename map replaced by its image and every
other value unchanged. -/
theorem apply_corrections_values_spec (m : List (String × String)) (df : CTable)
    (cn ac : String) (elev crop : List Cell)
    (hE : getColC df "Elevation" = some elev)
    (hC : getColC df "Crop_type" = some crop)
    (hnum : ∀ c ∈ elev, c.isNum = true) :
    ∃ df', FieldDataProcessor.apply_corrections m df cn ac = PyResult.ok df' ∧
      getColC df' "Elevation" = some (elev.map absCell) ∧
      getColC df' "Crop_type" = some (crop.map (renameCell m)) ∧
      (∀ q : ℚ, absCell (Cell.num q) = Cell.num |q|) ∧
      (∀ q : ℚ, 0 ≤ q → absCell (Cell.num q) = Cell.num q) ∧
      (∃ df'', FieldDataProcessor.apply_corrections m df' cn ac = PyResult.ok df'' ∧
        getColC df'' "Elevation" = some (elev.map absCell)) ∧
      (∀ s t, dget m s = some t → renameCell m (Cell.str s) = Cell.str t) ∧
      (∀ s, dget m s = none → renameCell m (Cell.str s) = Cell.str s) := by
  have hEC : ("Elevation" : String) ≠ "Crop_type" := by decide
  have habs := absSeries_of_num hnum
  have hhasE : hasCol df "Elevation" = true := hasCol_of_getColC hE
  have hC1 : getColC (setColC df "Elevation" (elev.map absCell)) "Crop_type" = some crop := by
    rw [getColC_setColC_ne _ _ _ _ hEC]; exact hC
  refine ⟨setColC (setColC df "Elevation" (elev.map absCell)) "Crop_type"
      (crop.map (renameCell m)), ?_, ?_, ?_, ?_, ?_, ?_, ?_, ?_⟩
  · simp only [FieldDataProcessor.apply_corrections, hE, habs, hC1]
  · rw [getColC_setColC_ne _ _ _ _ (Ne.symm hEC)]
    exact getColC_setColC_same _ hhasE
  · apply getColC_setColC_same
    exact hasCol_of_getColC hC1
  · intro q; rfl
  · intro q hq; simp [absCell, abs_of_nonneg hq]
  · -- second application: the elevation column is already non-negative
    set df' := setColC (setColC df "Elevation" (elev.map absCell)) "Crop_type"
        (crop.map (renameCell m)) with hdf'
    have hE' : getColC df' "Elevation" = some (elev.map absCell) := by
      rw [hdf', getColC_setColC_ne _ _ _ _ (Ne.symm hEC)]
      exact getColC_setColC_same _ hhasE
    have hnum' : ∀ c ∈ elev.map absCell, c.isNum = true := by
      intro c hc
      rcases List.mem_map.mp hc with ⟨a, ha, rfl⟩
      exact absCell_isNum (hnum a ha)
    have habs' : absSeries (elev.map absCell) = some ((elev.map absCell).map absCell) :=
      absSeries_of_num hnum'
    have habsabs : (elev.map absCell).map absCell = elev.map absCell := by
      rw [List.map_map]
      apply List.map_congr_left
      intro a ha
      cases a <;> simp [Function.comp, absCell, abs_abs]
    rw [habsabs] at habs'
    have hhasE' : hasCol df' "Elevation" = true := hasCol_of_getColC hE'
    have hC' : getColC df' "Crop_type" = some (crop.map (renameCell m)) := by
      rw [hdf']
      exact getColC_setColC_same _ (hasCol_of_getColC hC1)
    have hC'1 : getColC (setColC df' "Elevation" (elev.map absCell)) "Crop_type" =
        some (crop.map (renameCell m)) := by
      rw [getColC_setColC_ne _ _ _ _ hEC]; exact hC'
    refine ⟨setColC (setColC df' "Elevation" (elev.map absCell)) "Crop_type"
        ((crop.map (renameCell m)).map (renameCell m)), ?_, ?_⟩
    · simp only [FieldDataProcessor.apply_corrections, hE', habs', hC'1]
    · rw [getColC_setColC_ne _ _ _ _ (Ne.symm hEC)]
      exact getColC_setColC_same _ hhasE'
  · intro s t hst; simp [renameCell, renameMap, hst]
  · intro s hs; simp [renameCell, renameMap, hs]

/-- Witness for C5 on a concrete table with a negative, a positive and a
zero elevation and a crop value that is in the rename map next to one
that is not. -/
theorem apply_corrections_values_spec_witness :
    getColC [("Elevation", [Cell.num (-3), Cell.num 2, Cell.num 0]),
        ("Crop_type", [Cell.str "cassava ", Cell.str "maize"])] "Elevation" =
      some [Cell.num (-3), Cell.num 2, Cell.num 0] ∧
    getColC [("Elevation", [Cell.num (-3), Cell.num 2, Cell.num 0]),
        ("Crop_type", [Cell.str "cassava ", Cell.str "maize"])] "Crop_type" =
      some [Cell.str "cassava ", Cell.str "maize"] ∧
    (∀ c ∈ [Cell.num (-3), Cell.num 2, Cell.num 0], c.isNum = true) ∧
    ∃ df', FieldDataProcessor.apply_corrections [("cassava ", "cassava")]
        [("Elevation", [Cell.num (-3), Cell.num 2, Cell.num 0]),
          ("Crop_type", [Cell.str "cassava ", Cell.str "maize"])] "Crop_type" "Elevation" =
        PyResult.ok df' ∧
      getColC df' "Elevation" =
        some ([Cell.num (-3), Cell.num 2, Cell.num 0].map absCell) ∧
      getColC df' "Crop_type" =
        some ([Cell.str "cassava ", Cell.str "maize"].map
          (renameCell [("cassava ", "cassava")])) ∧
      (∀ q : ℚ, absCell (Cell.num q) = Cell.num |q|) ∧
      (∀ q : ℚ, 0 ≤ q → absCell (Cell.num q) = Cell.num q) ∧
      (∃ df'', FieldDataProcessor.apply_corrections [("cassava ", "cassava")] df'
          "Crop_type" "Elevation" = PyResult.ok df'' ∧
        getColC df'' "Elevation" =
          some ([Cell.num (-3), Cell.num 2, Cell.num 0].map absCell)) ∧
      (∀ s t, dget [("cassava ", "cassava")] s = some t →
        renameCell [("cassava ", "cassava")] (Cell.str s) = Cell.str t) ∧
      (∀ s, dget [("cassava ", "cassava")] s = none →
        renameCell [("cassava ", "cassava")] (Cell.str s) = Cell.str s) :=
  ⟨by decide, by decide, by decide,
    apply_corrections_values_spec [("cassava ", "cassava")] _ "Crop_type" "Elevation"
      _ _ (by decide) (by decide) (by decide)⟩

/-- C7: `apply_corrections` ignores its `column_name` and `abs_column`
arguments — any two argument pairs give the same result — and on success
it changes no column other than `Elevation` and `Crop_type`. -/
theorem apply_corrections_ignores_params (m : List (String × String)) (df df' : CTable)
    (cn ac cn' ac' n : String)
    (hok : FieldDataProcessor.apply_corrections m df cn ac = PyResult.ok df')
    (hn1 : n ≠ "Elevation") (hn2 : n ≠ "Crop_type") :
    FieldDataProcessor.apply_corrections m df cn ac =
      FieldDataProcessor.apply_corrections m df cn' ac' ∧
    getColC df' n = getColC df n := by
  refine ⟨rfl, ?_⟩
  unfold FieldDataProcessor.apply_corrections at hok
  split at hok
  · exact absurd hok (by simp)
  · split at hok
    · exact absurd hok (by simp)
    · dsimp only at hok
      split at hok
      · exact absurd hok (by simp)
      · simp only [PyResult.ok.injEq] at hok
        rw [← hok]
        rw [getColC_setColC_ne _ _ _ _ (Ne.symm hn2),
          getColC_setColC_ne _ _ _ _ (Ne.symm hn1)]

/-- Witness for C7 at a concrete table with an untouched third column and
arbitrary (dishonored) parameter values. -/
theorem apply_corrections_ignores_params_witness :
    FieldDataProcessor.apply_corrections [("x", "y")]
        [("Elevation", [Cell.num (-1)]), ("Crop_type", [Cell.str "a"]),
          ("Other", [Cell.num 5])] "p" "q" =
      PyResult.ok [("Elevation", [Cell.num 1]), ("Crop_type", [Cell.str "a"]),
        ("Other", [Cell.num 5])] ∧
    ("Other" : String) ≠ "Elevation" ∧ ("Other" : String) ≠ "Crop_type" ∧
    (FieldDataProcessor.apply_corrections [("x", "y")]
        [("Elevation", [Cell.num (-1)]), ("Crop_type", [Cell.str "a"]),
          ("Other", [Cell.num 5])] "p" "q" =
      FieldDataProcessor.apply_corrections [("x", "y")]
        [("Elevation", [Cell.num (-1)]), ("Crop_type", [Cell.str "a"]),
          ("Other", [Cell.num 5])] "r" "s" ∧
    getColC [("Elevation", [Cell.num 1]), ("Crop_type", [Cell.str "a"]),
        ("Other", [Cell.num 5])] "Other" =
      getColC [("Elevation", [Cell.num (-1)]), ("Crop_type", [Cell.str "a"]),
        ("Other", [Cell.num 5])] "Other") :=
  ⟨by decide, by decide, by decide,
    apply_corrections_ignores_params [("x", "y")] _ _ "p" "q" "r" "s" "Other"
      (by decide) (by decide) (by decide)⟩

namespace WeatherDataProcessor

/-- Result of a successful `re.search`: the tuple `match.groups()` of
captured groups, each possibly absent (`None`). -/
structure MatchRes where
  groups : List (Option String)
  deriving DecidableEq

/-- `next((x for x in match.groups() if x is not None))` minus the
StopIteration case: the first non-absent captured group, if any. -/
def firstSome : List (Option String) → Option String
  | [] => none
  | some s :: _ => some s
  | none :: rest => firstSome rest

/-- `WeatherDataProcessor.extract_measurement(message)`.  The regular
expression engine (`re.search`) and the numeric conversion (`float`) are
Python-library collaborators, passed in as oracles: `search pat msg` is
`re.search(pat, msg)` and `pyFloat s` is `float(s)` (`none` when the
text is not parseable, which makes `float` raise).  The rules are tried
in mapping-iteration (insertion) order; the first whose pattern matches
wins and yields `(key, float(first non-absent group))`; if the match has
no non-absent group, `next` raises StopIteration (`raised`); if no rule
matches, the result is `(None, None)`. -/
def extract_measurement (search : String → String → Option MatchRes)
    (pyFloat : String → Option ℚ) :
    List (String × String) → String → PyResult (Option String × Option ℚ)
  | [], _ => PyResult.ok (none, none)
  | (key, pat) :: rest, message =>
    match search pat message with
    | some mr =>
      match firstSome mr.groups with
      | none => PyResult.raised
      | some s =>
        match pyFloat s with
        | none => PyResult.raised
        | some q => PyResult.ok (some key, some q)
    | none => extract_measurement search pyFloat rest message

/-- A Python `str`-or-`None` stored into an object column. -/
def optStrCell : Option String → Cell
  | some k => Cell.str k
  | none => Cell.null

/-- A Python `float`-or-`None` stored into an object column. -/
def optNumCell : Option ℚ → Cell
  | some q => Cell.num q
  | none => Cell.null

/-- `self.weather_df['Message'].apply(self.extract_measurement)`: run the
extraction on every message cell; a non-string cell makes `re.search`
raise a TypeError, and a raising extraction aborts the whole `apply`
(`none`). -/
def extractAll (search : String → String → Option MatchRes)
    (pyFloat : String → Option ℚ) (patterns : List (String × String)) :
    List Cell → Option (List (Option String × Option ℚ))
  | [] => some []
  | Cell.str s :: rest =>
    match extract_measurement search pyFloat patterns s,
        extractAll search pyFloat patterns rest with
    | PyResult.ok p, some ps => some (p :: ps)
    | _, _ => none
  | _ :: _ => none

/-- `WeatherDataProcessor.process_messages`: if `weather_df` is `None`,
only a warning is logged and the unchanged `None` state is returned;
otherwise the extraction runs over the `Message` column and
`self.weather_df['Measurement'], self.weather_df['Value'] =
zip(*result)` adds the two aligned columns.  With zero rows,
`zip(*result)` unpacks no items into two names and raises ValueError. -/
def process_messages (search : String → String → Option MatchRes)
    (pyFloat : String → Option ℚ) (patterns : List (String × String))
    (wdf : Option CTable) : PyResult (Option CTable) :=
  match wdf with
  | none => PyResult.ok none
  | some df =>
    match getColC df "Message" with
    | none => PyResult.raised
    | some msgs =>
      match extractAll search pyFloat patterns msgs with
      | none => PyResult.raised
      | some pairs =>
        if pairs.isEmpty then PyResult.raised
        else
          PyResult.ok (some (setColC
            (setColC df "Measurement" (pairs.map (fun p => optStrCell p.1)))
            "Value" (pairs.map (fun p => optNumCell p.2))))

/-- The rows `groupby(by=['Weather_station_ID', 'Measurement'])` groups:
the three columns zipped, minus the rows whose station or measurement
key is null — pandas drops NaN/None group keys. -/
def validRows (sts ms vs : List Cell) : List (Cell × Cell × Cell) :=
  (sts.zip (ms.zip vs)).filter (fun t => decide (t.1 ≠ Cell.null ∧ t.2.1 ≠ Cell.null))

/-- The numeric content of a cell, if any. -/
def cellNum : Cell → Option ℚ
  | Cell.num q => some q
  | _ => none

/-- The numeric values contributing to the `(station, kind)` group:
pandas `mean` skips null values. -/
def groupVals (rows : List (Cell × Cell × Cell)) (st k : Cell) : List ℚ :=
  rows.filterMap (fun t => if t.1 = st ∧ t.2.1 = k then cellNum t.2.2 else none)

/-- Arithmetic mean, absent (`NaN` cell after `unstack`) when no value
contributes. -/
def meanQ (l : List ℚ) : Option ℚ :=
  if l.isEmpty then none else some (l.sum / l.length)

/-- `WeatherDataProcessor.calculate_means`: `None` state degrades to a
warning and returns `None`; otherwise
`groupby(by=['Weather_station_ID', 'Measurement'])['Value'].mean()
.unstack()` — a missing column raises a KeyError.  The result is the
station-by-kind grid of group means; `unstack` fills combinations with
no group with NaN (`none` cells).  pandas presents group keys sorted;
the grid here lists them in first-occurrence order, an ordering the
cell-contents properties do not depend on. -/
def calculate_means (wdf : Option CTable) :
    PyResult (Option (List (Cell × List (Cell × Option ℚ)))) :=
  match wdf with
  | none => PyResult.ok none
  | some df =>
    match getColC df "Weather_station_ID", getColC df "Measurement",
        getColC df "Value" with
    | some sts, some ms, some vs =>
      let rows := validRows sts ms vs
      let stations := (rows.map (fun t => t.1)).dedup
      let kinds := (rows.map (fun t => t.2.1)).dedup
      PyResult.ok (some (stations.map (fun st =>
        (st, kinds.map (fun k => (k, meanQ (groupVals rows st k)))))))
    | _, _, _ => PyResult.raised

end WeatherDataProcessor

/-- C2: extraction tries the rules in mapping-iteration order.  If the
rules split as a block `pre` none of whose patterns matches the message,
followed by a rule `(key, pat)` whose pattern matches with a first
non-absent captured group parseable as a float `q`, the result is
`(key, q)` — the earliest matching rule wins, whatever comes after it.
If no rule's pattern matches the message, the result is `(None, None)`. -/
theorem extract_measurement_first_match :
    (∀ (search : String → String → Option WeatherDataProcessor.MatchRes)
      (pyFloat : String → Option ℚ) (pre rest : List (String × String))
      (key pat message s : String) (mr : WeatherDataProcessor.MatchRes) (q : ℚ),
      (∀ p ∈ pre, search p.2 message = none) →
      search pat message = some mr →
      WeatherDataProcessor.firstSome mr.groups = some s →
      pyFloat s = some q →
      WeatherDataProcessor.extract_measurement search pyFloat
          (pre ++ (key, pat) :: rest) message = PyResult.ok (some key, some q)) ∧
    (∀ (search : String → String → Option WeatherDataProcessor.MatchRes)
      (pyFloat : String → Option ℚ) (patterns : List (String × String))
      (message : String),
      (∀ p ∈ patterns, search p.2 message = none) →
      WeatherDataProcessor.extract_measurement search pyFloat patterns message =
        PyResult.ok (none, none)) := by
  constructor
  · intro search pyFloat pre rest key pat message s mr q hpre hhit hg hq
    induction pre with
    | nil =>
      simp [WeatherDataProcessor.extract_measurement, hhit, hg, hq]
    | cons p pre ih =>
      have hp : search p.2 message = none := hpre p (List.mem_cons_self p pre)
      have hrest : ∀ p' ∈ pre, search p'.2 message = none :=
        fun p' hp' => hpre p' (List.mem_cons_of_mem p hp')
      rw [List.cons_append]
      rw [show WeatherDataProcessor.extract_measurement search pyFloat
          (p :: (pre ++ (key, pat) :: rest)) message =
            WeatherDataProcessor.extract_measurement search pyFloat
              (pre ++ (key, pat) :: rest) message by
        rw [WeatherDataProcessor.extract_measurement.eq_def]
        simp [hp]]
      exact ih hrest
  · intro search pyFloat patterns message hnone
    induction patterns with
    | nil => rfl
    | cons p rest ih =>
      have hp : search p.2 message = none := hnone p (List.mem_cons_self p rest)
      rw [WeatherDataProcessor.extract_measurement.eq_def]
      simp only [hp]
      exact ih (fun p' hp' => hnone p' (List.mem_cons_of_mem p hp'))


/-- Witness for C2 with a concrete two-rule set and oracle: the first
rule does not match, the second does and its group parses, so the second
rule's kind wins; and a message matching no rule gives `(None, None)`. -/
theorem extract_measurement_first_match_witness :
    (∀ p ∈ [(("Rainfall" : String), ("rain" : String))],
      (fun pat msg => if pat = "temp" ∧ msg = "m1" then
          some (WeatherDataProcessor.MatchRes.mk [none, some "22"]) else none)
        p.2 ("m1" : String) = none) ∧
    (fun pat msg => if pat = "temp" ∧ msg = "m1" then
        some (WeatherDataProcessor.MatchRes.mk [none, some "22"]) else none)
      ("temp" : String) ("m1" : String) =
      some (WeatherDataProcessor.MatchRes.mk [none, some "22"]) ∧
    WeatherDataProcessor.firstSome
      (WeatherDataProcessor.MatchRes.mk [none, some "22"]).groups = some "22" ∧
    (fun s => if s = ("22" : String) then some ((22 : ℚ)) else none) "22" =
      some ((22 : ℚ)) ∧
    WeatherDataProcessor.extract_measurement
      (fun pat msg => if pat = "temp" ∧ msg = "m1" then
          some (WeatherDataProcessor.MatchRes.mk [none, some "22"]) else none)
      (fun s => if s = ("22" : String) then some ((22 : ℚ)) else none)
      ([("Rainfall", "rain")] ++ ("Temperature", "temp") :: [("Pollution", "pol")])
      "m1" = PyResult.ok (some "Temperature", some ((22 : ℚ))) ∧
    WeatherDataProcessor.extract_measurement
      (fun pat msg => if pat = "temp" ∧ msg = "m1" then
          some (WeatherDataProcessor.MatchRes.mk [none, some "22"]) else none)
      (fun s => if s = ("22" : String) then some ((22 : ℚ)) else none)
      [("Rainfall", "rain"), ("Pollution", "pol")] "m2" = PyResult.ok (none, none) :=
  ⟨by decide, by decide, by decide, by decide,
    extract_measurement_first_match.1 _ _ [("Rainfall", "rain")] [("Pollution", "pol")]
      "Temperature" "temp" "m1" "22" (WeatherDataProcessor.MatchRes.mk [none, some "22"])
      ((22 : ℚ)) (by decide) (by decide) (by decide) (by decide),
    extract_measurement_first_match.2 _ _ [("Rainfall", "rain"), ("Pollution", "pol")]
      "m2" (by decide)⟩

/-- C3: on a loaded and processed table (the three columns present),
`calculate_means` returns a grid in which every cell of row `st` and
column `k` equals the arithmetic mean (`meanQ`) of the values
contributing to the `(st, k)` group; every station and kind observed in
the valid rows has its cell in the grid; a group with no contributing
values yields an absent cell (`meanQ` of an empty group is `none`), and
a nonempty group's cell is sum divided by count. -/
theorem calculate_means_grid_spec (df : CTable) (sts ms vs : List Cell)
    (h1 : getColC df "Weather_station_ID" = some sts)
    (h2 : getColC df "Measurement" = some ms)
    (h3 : getColC df "Value" = some vs) :
    ∃ g, WeatherDataProcessor.calculate_means (some df) = PyResult.ok (some g) ∧
      (∀ st row, (st, row) ∈ g →
        st ∈ (WeatherDataProcessor.validRows sts ms vs).map (fun t => t.1) ∧
        ∀ k c, (k, c) ∈ row →
          c = WeatherDataProcessor.meanQ
            (WeatherDataProcessor.groupVals (WeatherDataProcessor.validRows sts ms vs) st k)) ∧
      (∀ st k, st ∈ (WeatherDataProcessor.validRows sts ms vs).map (fun t => t.1) →
        k ∈ (WeatherDataProcessor.validRows sts ms vs).map (fun t => t.2.1) →
        ∃ row, (st, row) ∈ g ∧
          (k, WeatherDataProcessor.meanQ
            (WeatherDataProcessor.groupVals (WeatherDataProcessor.validRows sts ms vs) st k))
            ∈ row) ∧
      (∀ st k,
        WeatherDataProcessor.meanQ
            (WeatherDataProcessor.groupVals (WeatherDataProcessor.validRows sts ms vs) st k)
          = none ↔
        WeatherDataProcessor.groupVals (WeatherDataProcessor.validRows sts ms vs) st k = []) ∧
      (∀ st k l,
        WeatherDataProcessor.groupVals (WeatherDataProcessor.validRows sts ms vs) st k = l →
        l ≠ [] →
        WeatherDataProcessor.meanQ
            (WeatherDataProcessor.groupVals (WeatherDataProcessor.validRows sts ms vs) st k)
          = some (l.sum / l.length)) := by
  refine ⟨((WeatherDataProcessor.validRows sts ms vs).map (fun t => t.1)).dedup.map
      (fun st => (st, ((WeatherDataProcessor.validRows sts ms vs).map
        (fun t => t.2.1)).dedup.map (fun k => (k, WeatherDataProcessor.meanQ
          (WeatherDataProcessor.groupVals (WeatherDataProcessor.validRows sts ms vs) st k))))),
    ?_, ?_, ?_, ?_, ?_⟩
  · simp only [WeatherDataProcessor.calculate_means, h1, h2, h3]
  · intro st row hmem
    rcases List.mem_map.mp hmem with ⟨st', hst', heq⟩
    have hst : st' = st := congrArg Prod.fst heq
    subst hst
    constructor
    · exact List.mem_dedup.mp hst'
    · intro k c hkc
      have hrow : row = ((WeatherDataProcessor.validRows sts ms vs).map
          (fun t => t.2.1)).dedup.map (fun k => (k, WeatherDataProcessor.meanQ
            (WeatherDataProcessor.groupVals (WeatherDataProcessor.validRows sts ms vs) st' k))) :=
        (congrArg Prod.snd heq).symm
      rw [hrow] at hkc
      rcases List.mem_map.mp hkc with ⟨k', _, hkeq⟩
      have hk : k' = k := congrArg Prod.fst hkeq
      subst hk
      exact (congrArg Prod.snd hkeq).symm
  · intro st k hst hk
    refine ⟨((WeatherDataProcessor.validRows sts ms vs).map
        (fun t => t.2.1)).dedup.map (fun k => (k, WeatherDataProcessor.meanQ
          (WeatherDataProcessor.groupVals (WeatherDataProcessor.validRows sts ms vs) st k))),
      ?_, ?_⟩
    · exact List.mem_map_of_mem _ (List.mem_dedup.mpr hst)
    · exact List.mem_map_of_mem _ (List.mem_dedup.mpr hk)
  · intro st k
    unfold WeatherDataProcessor.meanQ
    constructor
    · intro h
      by_cases he : (WeatherDataProcessor.groupVals
          (WeatherDataProcessor.validRows sts ms vs) st k).isEmpty
      · exact List.isEmpty_iff.mp he
      · rw [if_neg (by simp [he])] at h; cases h
    · intro h
      rw [if_pos (List.isEmpty_iff.mpr h)]
  · intro st k l hl hne
    rw [hl]
    unfold WeatherDataProcessor.meanQ
    rw [if_neg (by simpa [List.isEmpty_iff] using hne)]

/-- Witness for C3: one station, one kind, values 10, 20 and 30; the
grid cell for that pair is their arithmetic mean 20. -/
theorem calculate_means_grid_spec_witness :
    getColC [(("Weather_station_ID" : String), [Cell.str "A", Cell.str "A", Cell.str "A"]),
        ("Measurement", [Cell.str "temp", Cell.str "temp", Cell.str "temp"]),
        ("Value", [Cell.num 10, Cell.num 20, Cell.num 30])] "Weather_station_ID" =
      some [Cell.str "A", Cell.str "A", Cell.str "A"] ∧
    (∃ g, WeatherDataProcessor.calculate_means
        (some [("Weather_station_ID", [Cell.str "A", Cell.str "A", Cell.str "A"]),
          ("Measurement", [Cell.str "temp", Cell.str "temp", Cell.str "temp"]),
          ("Value", [Cell.num 10, Cell.num 20, Cell.num 30])]) = PyResult.ok (some g) ∧
      (∀ st row, (st, row) ∈ g →
        st ∈ (WeatherDataProcessor.validRows
          [Cell.str "A", Cell.str "A", Cell.str "A"]
          [Cell.str "temp", Cell.str "temp", Cell.str "temp"]
          [Cell.num 10, Cell.num 20, Cell.num 30]).map (fun t => t.1) ∧
        ∀ k c, (k, c) ∈ row →
          c = WeatherDataProcessor.meanQ (WeatherDataProcessor.groupVals
            (WeatherDataProcessor.validRows
              [Cell.str "A", Cell.str "A", Cell.str "A"]
              [Cell.str "temp", Cell.str "temp", Cell.str "temp"]
              [Cell.num 10, Cell.num 20, Cell.num 30]) st k)) ∧
      (∀ st k, st ∈ (WeatherDataProcessor.validRows
          [Cell.str "A", Cell.str "A", Cell.str "A"]
          [Cell.str "temp", Cell.str "temp", Cell.str "temp"]
          [Cell.num 10, Cell.num 20, Cell.num 30]).map (fun t => t.1) →
        k ∈ (WeatherDataProcessor.validRows
          [Cell.str "A", Cell.str "A", Cell.str "A"]
          [Cell.str "temp", Cell.str "temp", Cell.str "temp"]
          [Cell.num 10, Cell.num 20, Cell.num 30]).map (fun t => t.2.1) →
        ∃ row, (st, row) ∈ g ∧
          (k, WeatherDataProcessor.meanQ (WeatherDataProcessor.groupVals
            (WeatherDataProcessor.validRows
              [Cell.str "A", Cell.str "A", Cell.str "A"]
              [Cell.str "temp", Cell.str "temp", Cell.str "temp"]
              [Cell.num 10, Cell.num 20, Cell.num 30]) st k)) ∈ row) ∧
      (∀ st k,
        WeatherDataProcessor.meanQ (WeatherDataProcessor.groupVals
          (WeatherDataProcessor.validRows
            [Cell.str "A", Cell.str "A", Cell.str "A"]
            [Cell.str "temp", Cell.str "temp", Cell.str "temp"]
            [Cell.num 10, Cell.num 20, Cell.num 30]) st k) = none ↔
        WeatherDataProcessor.groupVals (WeatherDataProcessor.validRows
          [Cell.str "A", Cell.str "A", Cell.str "A"]
          [Cell.str "temp", Cell.str "temp", Cell.str "temp"]
          [Cell.num 10, Cell.num 20, Cell.num 30]) st k = []) ∧
      (∀ st k l,
        WeatherDataProcessor.groupVals (WeatherDataProcessor.validRows
          [Cell.str "A", Cell.str "A", Cell.str "A"]
          [Cell.str "temp", Cell.str "temp", Cell.str "temp"]
          [Cell.num 10, Cell.num 20, Cell.num 30]) st k = l → l ≠ [] →
        WeatherDataProcessor.meanQ (WeatherDataProcessor.groupVals
          (WeatherDataProcessor.validRows
            [Cell.str "A", Cell.str "A", Cell.str "A"]
            [Cell.str "temp", Cell.str "temp", Cell.str "temp"]
            [Cell.num 10, Cell.num 20, Cell.num 30]) st k) = some (l.sum / l.length))) ∧
    WeatherDataProcessor.meanQ (WeatherDataProcessor.groupVals
      (WeatherDataProcessor.validRows
        [Cell.str "A", Cell.str "A", Cell.str "A"]
        [Cell.str "temp", Cell.str "temp", Cell.str "temp"]
        [Cell.num 10, Cell.num 20, Cell.num 30]) (Cell.str "A") (Cell.str "temp")) =
      some 20 := by
  refine ⟨by decide,
    calculate_means_grid_spec _ _ _ _ (by decide) (by decide) (by decide), ?_⟩
  rw [show WeatherDataProcessor.groupVals
      (WeatherDataProcessor.validRows
        [Cell.str "A", Cell.str "A", Cell.str "A"]
        [Cell.str "temp", Cell.str "temp", Cell.str "temp"]
        [Cell.num 10, Cell.num 20, Cell.num 30]) (Cell.str "A") (Cell.str "temp") =
      [10, 20, 30] from by decide]
  simp [WeatherDataProcessor.meanQ]
  norm_num

/-- C8: with the pipeline table uninitialized (`weather_df is None`),
`process_messages` and `calculate_means` do not raise: each returns the
absent result `None` (a logged warning in the code) and the state, which
`process_messages` returns, is the unchanged `None`. -/
theorem uninitialized_soft_failure
    (search : String → String → Option WeatherDataProcessor.MatchRes)
    (pyFloat : String → Option ℚ) (patterns : List (String × String)) :
    WeatherDataProcessor.process_messages search pyFloat patterns none =
      PyResult.ok none ∧
    WeatherDataProcessor.calculate_means none = PyResult.ok none :=
  ⟨rfl, rfl⟩

/-- C10: when the table is loaded (`some df`) but `process_messages` has
not run, so the `Measurement` column is absent, `calculate_means` raises
(the KeyError of `groupby` on a missing column) instead of taking the
soft-failure warning path, which only the `None` state triggers. -/
theorem calculate_means_missing_column_raises (df : CTable)
    (h : hasCol df "Measurement" = false) :
    WeatherDataProcessor.calculate_means (some df) = PyResult.raised := by
  have hm : getColC df "Measurement" = none := getColC_eq_none_of_not_hasCol h
  cases h1 : getColC df "Weather_station_ID" <;>
    cases h3 : getColC df "Value" <;>
    simp [WeatherDataProcessor.calculate_means, h1, h3, hm]

/-- Witness for C10: a table holding only the fetched columns
(station identifier and raw message), with no `Measurement` column. -/
theorem calculate_means_missing_column_raises_witness :
    hasCol [(("Weather_station_ID" : String), [Cell.str "A"]),
        ("Message", [Cell.str "m"])] "Measurement" = false ∧
    WeatherDataProcessor.calculate_means
        (some [("Weather_station_ID", [Cell.str "A"]), ("Message", [Cell.str "m"])]) =
      PyResult.raised :=
  ⟨by decide, calculate_means_missing_column_raises _ (by decide)⟩

/-- Row-oriented DataFrame: ordered column labels and rows of cells
aligned with them. -/
structure DF where
  cols : List String
  rows : List (List Cell)
  deriving DecidableEq

/-- Index of the first column with the given label, as pandas resolves a
label; `none` models the KeyError. -/
def colIdx : List String → String → Option Nat
  | [], _ => none
  | c :: rest, n => if c = n then some 0 else (colIdx rest n).map (fun i => i + 1)

/-- The output rows one left row contributes to a left merge: one row
per matching right row (key column removed from the right part), or the
left row padded with nulls in the right-table columns when no right row
matches (a null key matches nothing, as pandas NaN keys match nothing). -/
def mergeRow (right : DF) (ri li : Nat) (lr : List Cell) : List (List Cell) :=
  let kv := lr.getD li Cell.null
  let ms := if kv = Cell.null then []
    else right.rows.filter (fun rr => decide (rr.getD ri Cell.null = kv))
  if ms.isEmpty then
    [lr ++ List.replicate (right.cols.eraseIdx ri).length Cell.null]
  else ms.map (fun rr => lr ++ rr.eraseIdx ri)

/-- `pd.merge(left, right, on=key, how='left')`: every left row is kept;
a left row whose key matches no right row is padded with nulls in the
right-table columns, and a left row with several matches yields one
output row per match.  The key column appears once, at its left
position; a missing key column raises a KeyError. -/
def mergeLeft (left right : DF) (key : String) : PyResult DF :=
  match colIdx left.cols key, colIdx right.cols key with
  | some li, some ri =>
    PyResult.ok
      { cols := left.cols ++ right.cols.eraseIdx ri,
        rows := left.rows.flatMap (mergeRow right ri li) }
  | _, _ => PyResult.raised

/-- `df.drop(columns=name)`: removes the column, raising a KeyError when
the label is absent. -/
def dropCol (df : DF) (name : String) : PyResult DF :=
  match colIdx df.cols name with
  | some i =>
    PyResult.ok { cols := df.cols.eraseIdx i, rows := df.rows.map (fun r => r.eraseIdx i) }
  | none => PyResult.raised

namespace FieldDataProcessor

/-- `FieldDataProcessor.weather_station_mapping`: left-join the fetched
weather-station metadata onto the field table on `Field_ID`, then drop
the artifact index column `Unnamed: 0` that the CSV fetch produces. -/
def weather_station_mapping (df meta : DF) : PyResult DF :=
  match mergeLeft df meta "Field_ID" with
  | PyResult.ok merged => dropCol merged "Unnamed: 0"
  | PyResult.raised => PyResult.raised

end FieldDataProcessor

namespace DataIngestion

/-- `df.empty` for a pandas DataFrame: true when either axis has length
zero. -/
def dfEmpty (df : DF) : Bool := df.rows.isEmpty || df.cols.isEmpty

/-- `query_data(engine, sql_query)`: `pd.read_sql_query` is the external
collaborator whose outcome (`raised` on connection or query failure) is
the argument; an empty result DataFrame raises a ValueError (logged and
re-raised), a non-empty one is returned unchanged. -/
def query_data (result : PyResult DF) : PyResult DF :=
  match result with
  | PyResult.raised => PyResult.raised
  | PyResult.ok df => if dfEmpty df then PyResult.raised else PyResult.ok df

end DataIngestion

/-- C9: a query whose result set has zero rows raises (empty result is
an error, not a valid empty table); a query whose result set is
non-empty — at least one row, and at least one column as any relational
result set has — is returned as-is. -/
theorem query_data_empty_raises (df : DF) :
    (df.rows = [] → DataIngestion.query_data (PyResult.ok df) = PyResult.raised) ∧
    (df.rows ≠ [] → df.cols ≠ [] →
      DataIngestion.query_data (PyResult.ok df) = PyResult.ok df) := by
  constructor
  · intro h
    simp [DataIngestion.query_data, DataIngestion.dfEmpty, h]
  · intro h1 h2
    simp [DataIngestion.query_data, DataIngestion.dfEmpty, h1, h2]

/-- Witness for C9: a zero-row result raises, a one-row result is
returned. -/
theorem query_data_empty_raises_witness :
    DataIngestion.query_data (PyResult.ok (DF.mk ["v"] [])) = PyResult.raised ∧
    DataIngestion.query_data (PyResult.ok (DF.mk ["v"] [[Cell.num 1]])) =
      PyResult.ok (DF.mk ["v"] [[Cell.num 1]]) :=
  ⟨(query_data_empty_raises (DF.mk ["v"] [])).1 rfl,
    (query_data_empty_raises (DF.mk ["v"] [[Cell.num 1]])).2 (by decide) (by decide)⟩

section MergeLemmas

lemma colIdx_isSome_of_mem {cols : List String} {n : String} (h : n ∈ cols) :
    ∃ i, colIdx cols n = some i := by
  induction cols with
  | nil => cases h
  | cons c rest ih =>
    by_cases hc : c = n
    · exact ⟨0, by simp [colIdx, hc]⟩
    · rcases List.mem_cons.mp h with rfl | hr
      · exact absurd rfl hc
      · rcases ih hr with ⟨i, hi⟩
        exact ⟨i + 1, by simp [colIdx, hc, hi]⟩

lemma flatMap_length_one {α β : Type} (l : List α) (f : α → List β)
    (h : ∀ a ∈ l, (f a).length = 1) : (l.flatMap f).length = l.length := by
  induction l with
  | nil => simp
  | cons a l ih =>
    rw [List.flatMap_cons, List.length_append, h a (List.mem_cons_self a l),
      ih (fun a ha => h a (List.mem_cons_of_mem _ ha))]
    simp only [List.length_cons]
    omega

end MergeLemmas

/-- C4 counterexample: the claim says the joined table's row count equals
the field table's row count regardless of how many metadata rows match.
With one field row whose identifier matches two metadata rows, the left
join emits one output row per match: the joined table has 2 rows while
the field table has 1. -/
theorem weather_station_mapping_row_count_counterexample :
    FieldDataProcessor.weather_station_mapping
        (DF.mk ["Field_ID", "Temp"] [[Cell.num 1, Cell.num 7]])
        (DF.mk ["Field_ID", "Unnamed: 0", "Station"]
          [[Cell.num 1, Cell.num 0, Cell.str "a"],
            [Cell.num 1, Cell.num 1, Cell.str "b"]]) =
      PyResult.ok (DF.mk ["Field_ID", "Temp", "Station"]
        [[Cell.num 1, Cell.num 7, Cell.str "a"],
          [Cell.num 1, Cell.num 7, Cell.str "b"]]) ∧
    (DF.mk ["Field_ID", "Temp", "Station"]
        [[Cell.num 1, Cell.num 7, Cell.str "a"],
          [Cell.num 1, Cell.num 7, Cell.str "b"]]).rows.length ≠
      (DF.mk ["Field_ID", "Temp"] [[Cell.num 1, Cell.num 7]]).rows.length := by
  decide

/-- C4 (amended): when each field row's identifier matches at most one
metadata row, the joined (and artifact-dropped) table has exactly as
many rows as the field table; every field row whose identifier matches
no metadata row still appears in the merge output, padded with null
cells in all metadata columns. -/
theorem weather_station_mapping_unique_key_left_join (df meta : DF) (li ri : Nat)
    (hli : colIdx df.cols "Field_ID" = some li)
    (hri : colIdx meta.cols "Field_ID" = some ri)
    (hu : "Unnamed: 0" ∈ df.cols ++ meta.cols.eraseIdx ri)
    (huniq : ∀ lr ∈ df.rows,
      (meta.rows.filter
        (fun rr => decide (rr.getD ri Cell.null = lr.getD li Cell.null))).length ≤ 1) :
    ∃ merged d, mergeLeft df meta "Field_ID" = PyResult.ok merged ∧
      FieldDataProcessor.weather_station_mapping df meta = PyResult.ok d ∧
      d.rows.length = df.rows.length ∧
      (∀ lr ∈ df.rows, lr.getD li Cell.null ≠ Cell.null →
        meta.rows.filter
            (fun rr => decide (rr.getD ri Cell.null = lr.getD li Cell.null)) = [] →
        lr ++ List.replicate (meta.cols.eraseIdx ri).length Cell.null ∈ merged.rows) := by
  rcases colIdx_isSome_of_mem hu with ⟨i, hi⟩
  have hmerge : mergeLeft df meta "Field_ID" = PyResult.ok
      ⟨df.cols ++ meta.cols.eraseIdx ri, df.rows.flatMap (mergeRow meta ri li)⟩ := by
    simp [mergeLeft, hli, hri]
  have hlen1 : ∀ lr ∈ df.rows, (mergeRow meta ri li lr).length = 1 := by
    intro lr hlr
    unfold mergeRow
    dsimp only
    by_cases hkv : lr.getD li Cell.null = Cell.null
    · rw [if_pos hkv]
      simp
    · rw [if_neg hkv]
      rcases hms : meta.rows.filter
          (fun rr => decide (rr.getD ri Cell.null = lr.getD li Cell.null)) with _ | ⟨r0, ms'⟩
      · rw [hms]
        simp
      · have hlen := huniq lr hlr
        rw [hms] at hlen
        simp only [List.length_cons] at hlen
        have hnil : ms' = [] := List.length_eq_zero.mp (by omega)
        subst hnil
        rw [hms]
        simp
  refine ⟨⟨df.cols ++ meta.cols.eraseIdx ri, df.rows.flatMap (mergeRow meta ri li)⟩,
    ⟨(df.cols ++ meta.cols.eraseIdx ri).eraseIdx i,
      (df.rows.flatMap (mergeRow meta ri li)).map (fun r => r.eraseIdx i)⟩,
    hmerge, ?_, ?_, ?_⟩
  · unfold FieldDataProcessor.weather_station_mapping
    rw [hmerge]
    simp [dropCol, hi]
  · simp only [List.length_map]
    exact flatMap_length_one _ _ hlen1
  · intro lr hlr hkv hms
    apply List.mem_flatMap.mpr
    refine ⟨lr, hlr, ?_⟩
    unfold mergeRow
    dsimp only
    rw [if_neg hkv, hms]
    simp

/-- Witness for C4 (amended): two field rows, one matching a single
metadata row and one matching none. -/
theorem weather_station_mapping_unique_key_left_join_witness :
    colIdx (DF.mk ["Field_ID"] [[Cell.num 1], [Cell.num 2]]).cols "Field_ID" = some 0 ∧
    colIdx (DF.mk ["Field_ID", "Unnamed: 0"] [[Cell.num 1, Cell.num 0]]).cols "Field_ID" =
      some 0 ∧
    ("Unnamed: 0" : String) ∈ (DF.mk ["Field_ID"] [[Cell.num 1], [Cell.num 2]]).cols ++
      (DF.mk ["Field_ID", "Unnamed: 0"] [[Cell.num 1, Cell.num 0]]).cols.eraseIdx 0 ∧
    (∀ lr ∈ (DF.mk ["Field_ID"] [[Cell.num 1], [Cell.num 2]]).rows,
      ((DF.mk ["Field_ID", "Unnamed: 0"] [[Cell.num 1, Cell.num 0]]).rows.filter
        (fun rr => decide (rr.getD 0 Cell.null = lr.getD 0 Cell.null))).length ≤ 1) ∧
    (∃ merged d,
      mergeLeft (DF.mk ["Field_ID"] [[Cell.num 1], [Cell.num 2]])
        (DF.mk ["Field_ID", "Unnamed: 0"] [[Cell.num 1, Cell.num 0]]) "Field_ID" =
        PyResult.ok merged ∧
      FieldDataProcessor.weather_station_mapping
        (DF.mk ["Field_ID"] [[Cell.num 1], [Cell.num 2]])
        (DF.mk ["Field_ID", "Unnamed: 0"] [[Cell.num 1, Cell.num 0]]) = PyResult.ok d ∧
      d.rows.length = (DF.mk ["Field_ID"] [[Cell.num 1], [Cell.num 2]]).rows.length ∧
      (∀ lr ∈ (DF.mk ["Field_ID"] [[Cell.num 1], [Cell.num 2]]).rows,
        lr.getD 0 Cell.null ≠ Cell.null →
        (DF.mk ["Field_ID", "Unnamed: 0"] [[Cell.num 1, Cell.num 0]]).rows.filter
            (fun rr => decide (rr.getD 0 Cell.null = lr.getD 0 Cell.null)) = [] →
        lr ++ List.replicate
            ((DF.mk ["Field_ID", "Unnamed: 0"] [[Cell.num 1, Cell.num 0]]).cols.eraseIdx
              0).length Cell.null ∈ merged.rows)) :=
  ⟨by decide, by decide, by decide, by decide,
    weather_station_mapping_unique_key_left_join
      (DF.mk ["Field_ID"] [[Cell.num 1], [Cell.num 2]])
      (DF.mk ["Field_ID", "Unnamed: 0"] [[Cell.num 1, Cell.num 0]]) 0 0
      (by decide) (by decide) (by decide) (by decide)⟩
